import Mathlib

/-!
Verification development for the OpenTrickler v2 core: a shallow embedding of
the charge-mode PD dispense loop (`src/charge_mode.cpp`), the adaptive +
GP hybrid PID auto-tuner (`ai_tuning.c`), the CRC32 routines and dual-bank
firmware updater (`firmware_update/`), the bootloader bank validation and
rollback path (`bootloader/bootloader.c`), and the WiFi configuration region
(`wireless.c`).  Floating point arithmetic is embedded over `ℚ`; 32-bit
unsigned arithmetic is embedded over `Nat` with explicit reduction mod `2^32`
where wrap-around matters.
-/

/- ===================================================================
   AI tuner data model (ai_tuning.h / ai_tuning.c)
   =================================================================== -/

/-- Session states, from `ai_tuning_state_t`. -/
inductive ai_tuning_state_t
  | idle
  | phase1_coarse
  | phase2_fine
  | complete
  | tuning_error
  deriving DecidableEq, Repr

/-- Motor modes, from `ai_motor_mode_t`. -/
inductive ai_motor_mode_t
  | normal
  | coarse_only
  | fine_only
  deriving DecidableEq, Repr

/-- Adaptive-tuning sub-phases, from `tuning_phase_t` in ai_tuning.c. -/
inductive tuning_phase_t
  | adaptive_kp
  | adaptive_kd
  | gp_refine
  deriving DecidableEq, Repr

/-- The PID/flow-bound fields of `profile_t` used by the dispense loop and
the tuner's apply step. -/
structure profile_t where
  coarse_kp : ℚ
  coarse_ki : ℚ
  coarse_kd : ℚ
  fine_kp : ℚ
  fine_ki : ℚ
  fine_kd : ℚ
  coarse_min_flow_speed_rps : ℚ
  coarse_max_flow_speed_rps : ℚ
  fine_min_flow_speed_rps : ℚ
  fine_max_flow_speed_rps : ℚ
  deriving DecidableEq, Repr

/-- Per-drop telemetry, from `ai_drop_telemetry_t`. -/
structure ai_drop_telemetry_t where
  drop_number : Nat
  coarse_time_ms : ℚ
  fine_time_ms : ℚ
  total_time_ms : ℚ
  final_weight : ℚ
  target_weight : ℚ
  overthrow : ℚ
  overthrow_percent : ℚ
  coarse_kp_used : ℚ
  coarse_kd_used : ℚ
  fine_kp_used : ℚ
  fine_kd_used : ℚ
  deriving DecidableEq, Repr

/-- Tuner configuration fields used by scoring and phase logic, from
`ai_tuning_config_t`. -/
structure ai_tuning_config_t where
  max_overthrow_percent : ℚ
  target_coarse_time_ms : ℚ
  target_total_time_ms : ℚ
  deriving DecidableEq, Repr

/-- Tuner session, from `ai_tuning_session_t`.  The mutated target profile
is held by value behind `Option` (NULL pointer = `none`). -/
structure ai_tuning_session_t where
  state : ai_tuning_state_t
  target_profile : Option profile_t
  drops_completed : Nat
  total_drops_target : Nat
  max_drops_allowed : Nat
  drops : List ai_drop_telemetry_t
  coarse_kp_best : ℚ
  coarse_kd_best : ℚ
  fine_kp_best : ℚ
  fine_kd_best : ℚ
  recommended_coarse_kp : ℚ
  recommended_coarse_kd : ℚ
  recommended_fine_kp : ℚ
  recommended_fine_kd : ℚ
  phase2_start_idx : Nat
  avg_overthrow : ℚ
  avg_total_time : ℚ
  deriving DecidableEq, Repr

/-- The three GP operations `ai_tuning.c` calls on a `gp_model_t`
(`gp_add_observation`, `gp_get_best_observed`, `gp_get_next_params`),
abstracted over the model representation `G`. -/
structure gp_ops_t (G : Type) where
  add_observation : G → ℚ → ℚ → ℚ → G
  get_best_observed : G → ℚ × ℚ × ℚ
  get_next_params : G → ℚ × ℚ

/-- The ai_tuning.c module state: the session together with the
file-static adaptive bookkeeping (`g_coarse_tuning_phase`, step sizes,
overthrow flags, GP refinement counter and the two GP models). -/
structure tuner_state_t (G : Type) where
  session : ai_tuning_session_t
  config : ai_tuning_config_t
  coarse_tuning_phase : tuning_phase_t
  fine_tuning_phase : tuning_phase_t
  coarse_kp_step : ℚ
  coarse_kd_step : ℚ
  fine_kp_step : ℚ
  fine_kd_step : ℚ
  coarse_had_overthrow : Bool
  fine_had_overthrow : Bool
  gp_refine_drops : Nat
  gp_coarse : G
  gp_fine : G

/-- `COARSE_KP_MAX` (range constants in ai_tuning.c). -/
def COARSE_KP_MAX : ℚ := 1
def COARSE_KP_MIN : ℚ := 0
def COARSE_KD_MAX : ℚ := 1
def COARSE_KD_MIN : ℚ := 0
def FINE_KP_MAX : ℚ := 10
def FINE_KP_MIN : ℚ := 0
def FINE_KD_MAX : ℚ := 10
def FINE_KD_MIN : ℚ := 0

/-- `COARSE_MIN_STEP` = 0.02 (2% of the 0–1 range). -/
def COARSE_MIN_STEP : ℚ := 1/50

/-- `FINE_MIN_STEP` = 0.2 (2% of the 0–10 range). -/
def FINE_MIN_STEP : ℚ := 1/5

/-- `GP_REFINE_DROPS` = 5 GP-guided drops per refinement phase. -/
def GP_REFINE_DROPS : Nat := 5

/-- `ai_tuning_is_active`: the session is active in phase 1 or phase 2. -/
def ai_tuning_is_active (s : ai_tuning_session_t) : Bool :=
  s.state = ai_tuning_state_t.phase1_coarse ∨ s.state = ai_tuning_state_t.phase2_fine

/-- `ai_tuning_get_motor_mode`. -/
def ai_tuning_get_motor_mode (s : ai_tuning_session_t) : ai_motor_mode_t :=
  match s.state with
  | .phase1_coarse => .coarse_only
  | .phase2_fine => .fine_only
  | _ => .normal

/-- `calculate_score` from ai_tuning.c: base 100, overthrow penalty capped
at 50, slow-time penalty capped at 30, under-time bonus when overthrow is
acceptable, clamped below at 0. -/
def calculate_score (cfg : ai_tuning_config_t) (drop : ai_drop_telemetry_t) : ℚ :=
  let score : ℚ := 100
  let overthrow_penalty := |drop.overthrow_percent| * 5
  let overthrow_penalty := if overthrow_penalty > 50 then 50 else overthrow_penalty
  let score := score - overthrow_penalty
  let ratio_time := drop.total_time_ms / cfg.target_total_time_ms
  let score :=
    if ratio_time > 1 then
      let time_penalty := (ratio_time - 1) * 30
      let time_penalty := if time_penalty > 30 then 30 else time_penalty
      score - time_penalty
    else score
  let score :=
    if ratio_time < 1 ∧ drop.overthrow_percent ≤ cfg.max_overthrow_percent then
      score + (1 - ratio_time) * 20
    else score
  if score < 0 then 0 else score

/-- The scoring formula exactly as the specification states it:
`100 − min(50, 5·|overthrow%|) − min(30, 30·max(0, r−1))
 + (20·(1−r) when r < 1 and overthrow% ≤ target, else 0)`, clamped to `[0, ∞)`,
with `r = total_time_ms / total_time_target_ms`. -/
def claim_score (cfg : ai_tuning_config_t) (drop : ai_drop_telemetry_t) : ℚ :=
  let r := drop.total_time_ms / cfg.target_total_time_ms
  max 0 (100 - min 50 (5 * |drop.overthrow_percent|) - min 30 (30 * max 0 (r - 1))
    + (if r < 1 ∧ drop.overthrow_percent ≤ cfg.max_overthrow_percent then 20 * (1 - r) else 0))

/-- `calculate_next_params_phase1` from ai_tuning.c (coarse adaptive
step-halving followed by GP refinement). -/
def calculate_next_params_phase1 {G : Type} (ops : gp_ops_t G)
    (coarse_stop_threshold : ℚ) (ts : tuner_state_t G)
    (drop : ai_drop_telemetry_t) : tuner_state_t G :=
  let has_overthrow := drop.overthrow > coarse_stop_threshold
  let time_ok := drop.coarse_time_ms ≤ ts.config.target_coarse_time_ms
  if ts.coarse_tuning_phase = .gp_refine then
    let n := ts.gp_refine_drops + 1
    if n ≥ GP_REFINE_DROPS then
      let best := ops.get_best_observed ts.gp_coarse
      { ts with
        session := { ts.session with
          recommended_coarse_kp := best.1
          recommended_coarse_kd := best.2.1
          phase2_start_idx := ts.session.drops_completed
          state := .phase2_fine }
        gp_refine_drops := 0 }
    else { ts with gp_refine_drops := n }
  else
    let ts' :=
      if ts.coarse_tuning_phase = .adaptive_kp then
        if has_overthrow then
          if ts.coarse_kp_step > COARSE_MIN_STEP then
            let kp := ts.session.coarse_kp_best - ts.coarse_kp_step
            let kp := if kp < 0 then 0 else kp
            let step := ts.coarse_kp_step / 2
            let step := if step < COARSE_MIN_STEP then COARSE_MIN_STEP else step
            { ts with
              session := { ts.session with coarse_kp_best := kp + step }
              coarse_kp_step := step
              coarse_had_overthrow := true }
          else
            { ts with
              coarse_tuning_phase := .adaptive_kd
              session := { ts.session with
                coarse_kd_best := ts.session.coarse_kd_best + ts.coarse_kd_step }
              coarse_had_overthrow := true }
        else
          let kp := ts.session.coarse_kp_best + ts.coarse_kp_step
          if kp ≥ COARSE_KP_MAX then
            { ts with
              session := { ts.session with coarse_kp_best := COARSE_KP_MAX }
              coarse_tuning_phase := .adaptive_kd }
          else
            { ts with session := { ts.session with coarse_kp_best := kp } }
      else
        -- TUNING_PHASE_ADAPTIVE_KD
        let overthrow_ok := ¬ has_overthrow
        if overthrow_ok ∧ time_ok then
          { ts with
            session := { ts.session with
              coarse_kp_best := min ts.session.coarse_kp_best COARSE_KP_MAX
              coarse_kd_best := min ts.session.coarse_kd_best COARSE_KD_MAX }
            coarse_tuning_phase := .gp_refine
            gp_refine_drops := 0 }
        else if ¬ overthrow_ok then
          let kd := ts.session.coarse_kd_best + ts.coarse_kd_step
          if kd ≥ COARSE_KD_MAX then
            { ts with
              session := { ts.session with coarse_kd_best := COARSE_KD_MAX }
              coarse_tuning_phase := .gp_refine }
          else
            { ts with session := { ts.session with coarse_kd_best := kd } }
        else
          { ts with
            session := { ts.session with
              coarse_kp_best := ts.session.coarse_kp_best + COARSE_MIN_STEP } }
    -- final clamp to the valid range
    { ts' with
      session := { ts'.session with
        coarse_kp_best := min (max ts'.session.coarse_kp_best COARSE_KP_MIN) COARSE_KP_MAX
        coarse_kd_best := min (max ts'.session.coarse_kd_best COARSE_KD_MIN) COARSE_KD_MAX } }

/-- `finalize_recommendations` from ai_tuning.c. -/
def finalize_recommendations {G : Type} (ts : tuner_state_t G) : tuner_state_t G :=
  let s := ts.session
  let used := s.drops.take s.drops_completed
  let total_overthrow := used.foldl (fun a d => a + d.overthrow) 0
  let total_time := used.foldl (fun a d => a + d.total_time_ms) 0
  let count := used.length
  let s := { s with state := ai_tuning_state_t.complete }
  let s :=
    if count > 0 then
      { s with
        avg_overthrow := total_overthrow / count
        avg_total_time := total_time / count }
    else s
  { ts with session := s }

/-- `calculate_next_params_phase2` from ai_tuning.c (fine adaptive
step-halving followed by GP refinement). -/
def calculate_next_params_phase2 {G : Type} (ops : gp_ops_t G)
    (ts : tuner_state_t G) (drop : ai_drop_telemetry_t) : tuner_state_t G :=
  let has_overthrow := drop.overthrow > 0
  let overthrow_acceptable := |drop.overthrow_percent| ≤ ts.config.max_overthrow_percent
  let time_ok := drop.total_time_ms ≤ ts.config.target_total_time_ms
  if ts.fine_tuning_phase = .gp_refine then
    let n := ts.gp_refine_drops + 1
    if n ≥ GP_REFINE_DROPS then
      let best := ops.get_best_observed ts.gp_fine
      finalize_recommendations
        { ts with
          session := { ts.session with
            recommended_fine_kp := best.1
            recommended_fine_kd := best.2.1 }
          gp_refine_drops := n }
    else { ts with gp_refine_drops := n }
  else
    let ts' :=
      if ts.fine_tuning_phase = .adaptive_kp then
        if has_overthrow then
          if ts.fine_kp_step > FINE_MIN_STEP then
            let kp := ts.session.fine_kp_best - ts.fine_kp_step
            let kp := if kp < 0 then 0 else kp
            let step := ts.fine_kp_step / 2
            let step := if step < FINE_MIN_STEP then FINE_MIN_STEP else step
            { ts with
              session := { ts.session with fine_kp_best := kp + step }
              fine_kp_step := step
              fine_had_overthrow := true }
          else
            { ts with
              fine_tuning_phase := .adaptive_kd
              session := { ts.session with
                fine_kd_best := ts.session.fine_kd_best + ts.fine_kd_step }
              fine_had_overthrow := true }
        else
          let kp := ts.session.fine_kp_best + ts.fine_kp_step
          if kp ≥ FINE_KP_MAX then
            { ts with
              session := { ts.session with fine_kp_best := FINE_KP_MAX }
              fine_tuning_phase := .adaptive_kd }
          else
            { ts with session := { ts.session with fine_kp_best := kp } }
      else
        -- TUNING_PHASE_ADAPTIVE_KD
        if overthrow_acceptable ∧ time_ok then
          { ts with
            session := { ts.session with
              fine_kp_best := min ts.session.fine_kp_best FINE_KP_MAX
              fine_kd_best := min ts.session.fine_kd_best FINE_KD_MAX }
            fine_tuning_phase := .gp_refine
            gp_refine_drops := 0 }
        else if ¬ overthrow_acceptable ∧ has_overthrow then
          let kd := ts.session.fine_kd_best + ts.fine_kd_step
          if kd ≥ FINE_KD_MAX then
            { ts with
              session := { ts.session with fine_kd_best := FINE_KD_MAX }
              fine_tuning_phase := .gp_refine }
          else
            { ts with session := { ts.session with fine_kd_best := kd } }
        else if ¬ time_ok then
          { ts with
            session := { ts.session with
              fine_kp_best := ts.session.fine_kp_best + FINE_MIN_STEP } }
        else
          if ts.session.fine_kd_best > FINE_MIN_STEP then
            { ts with
              session := { ts.session with
                fine_kd_best := ts.session.fine_kd_best - FINE_MIN_STEP } }
          else ts
    { ts' with
      session := { ts'.session with
        fine_kp_best := min (max ts'.session.fine_kp_best FINE_KP_MIN) FINE_KP_MAX
        fine_kd_best := min (max ts'.session.fine_kd_best FINE_KD_MIN) FINE_KD_MAX } }

/-- `ai_tuning_record_drop` from ai_tuning.c: reject when inactive or the
telemetry pointer is NULL; on reaching the drop cap transition to the error
state with the current bests as recommendations and return false; otherwise
store the telemetry, score it, feed the phase's GP model and advance the
phase logic.  `coarse_stop_threshold` is read from the charge-mode
configuration. -/
def ai_tuning_record_drop {G : Type} (ops : gp_ops_t G)
    (coarse_stop_threshold : ℚ) (ts : tuner_state_t G)
    (telemetry : Option ai_drop_telemetry_t) : Bool × tuner_state_t G :=
  match telemetry with
  | none => (false, ts)
  | some drop =>
    if ¬ ai_tuning_is_active ts.session then (false, ts)
    else if ts.session.drops_completed ≥ ts.session.max_drops_allowed then
      (false,
        { ts with session := { ts.session with
            state := .tuning_error
            recommended_coarse_kp := ts.session.coarse_kp_best
            recommended_coarse_kd := ts.session.coarse_kd_best
            recommended_fine_kp := ts.session.fine_kp_best
            recommended_fine_kd := ts.session.fine_kd_best } })
    else
      let ts := { ts with session := { ts.session with
          drops := ts.session.drops ++ [drop]
          drops_completed := ts.session.drops_completed + 1 } }
      let score := calculate_score ts.config drop
      if ts.session.state = .phase1_coarse then
        let ts := { ts with
          gp_coarse := ops.add_observation ts.gp_coarse drop.coarse_kp_used drop.coarse_kd_used score }
        (true, calculate_next_params_phase1 ops coarse_stop_threshold ts drop)
      else if ts.session.state = .phase2_fine then
        let ts := { ts with
          gp_fine := ops.add_observation ts.gp_fine drop.fine_kp_used drop.fine_kd_used score }
        (true, calculate_next_params_phase2 ops ts drop)
      else (true, ts)

/-- `ai_tuning_start` from ai_tuning.c: NULL profile is rejected; the
session starts in phase 1 with `max_drops_allowed = 30`, either zero seeds
or 70% of the ML suggestions, and the initial adaptive step sizes.
The ML suggestion lookup and the fresh GP models are supplied by the
caller (`suggestions`, `gpC`, `gpF`). -/
def ai_tuning_start {G : Type} (gpC gpF : G) (profile : Option profile_t)
    (suggestions : Option (ℚ × ℚ × ℚ × ℚ))
    (target_coarse_time_ms target_total_time_ms max_overthrow_percent : ℚ) :
    Bool × Option (tuner_state_t G) :=
  match profile with
  | none => (false, none)
  | some p =>
    let seeds :=
      match suggestions with
      | some (a, b, c, d) => (a * (7/10), b * (7/10), c * (7/10), d * (7/10))
      | none => ((0 : ℚ), (0 : ℚ), (0 : ℚ), (0 : ℚ))
    (true, some
      { session :=
        { state := .phase1_coarse
          target_profile := some p
          drops_completed := 0
          total_drops_target := 15
          max_drops_allowed := 30
          drops := []
          coarse_kp_best := seeds.1
          coarse_kd_best := seeds.2.1
          fine_kp_best := seeds.2.2.1
          fine_kd_best := seeds.2.2.2
          recommended_coarse_kp := 0
          recommended_coarse_kd := 0
          recommended_fine_kp := 0
          recommended_fine_kd := 0
          phase2_start_idx := 0
          avg_overthrow := 0
          avg_total_time := 0 }
        config :=
        { max_overthrow_percent := max_overthrow_percent
          target_coarse_time_ms := target_coarse_time_ms
          target_total_time_ms := target_total_time_ms }
        coarse_tuning_phase := .adaptive_kp
        fine_tuning_phase := .adaptive_kp
        coarse_kp_step := 1/5
        coarse_kd_step := 1/10
        fine_kp_step := 2
        fine_kd_step := 1
        coarse_had_overthrow := false
        fine_had_overthrow := false
        gp_refine_drops := 0
        gp_coarse := gpC
        gp_fine := gpF })

/-- `ai_tuning_get_recommended_params`: only available in the COMPLETE or
ERROR states (`none` embeds the `return false` path). -/
def ai_tuning_get_recommended_params (s : ai_tuning_session_t) :
    Option (ℚ × ℚ × ℚ × ℚ) :=
  if s.state ≠ ai_tuning_state_t.complete ∧ s.state ≠ ai_tuning_state_t.tuning_error then
    none
  else
    some (s.recommended_coarse_kp, s.recommended_coarse_kd,
          s.recommended_fine_kp, s.recommended_fine_kd)

/-- `ai_tuning_apply_params`: requires COMPLETE or ERROR and a non-NULL
target profile; copies the recommendations into the profile and resets the
session state to IDLE. -/
def ai_tuning_apply_params (s : ai_tuning_session_t) : Bool × ai_tuning_session_t :=
  match s.target_profile with
  | none => (false, s)
  | some p =>
    if s.state ≠ ai_tuning_state_t.complete ∧ s.state ≠ ai_tuning_state_t.tuning_error then
      (false, s)
    else
      (true,
        { s with
          target_profile := some
            { p with
              coarse_kp := s.recommended_coarse_kp
              coarse_kd := s.recommended_coarse_kd
              fine_kp := s.recommended_fine_kp
              fine_kd := s.recommended_fine_kd }
          state := .idle })

/- ===================================================================
   Charge-mode dispense loop (charge_mode.cpp, charge_mode_wait_for_complete)
   =================================================================== -/

/-- The two trickler motors (`SELECT_COARSE_TRICKLER_MOTOR`,
`SELECT_FINE_TRICKLER_MOTOR`). -/
inductive trickler_motor_t
  | coarse_motor
  | fine_motor
  deriving DecidableEq, Repr

/-- `fmin(get_motor_max_speed(COARSE), profile->coarse_max_flow_speed_rps)`
(charge_mode.cpp lines 243–244); analogous functions follow for the other
three bounds (lines 245–250). -/
def coarse_trickler_max_speed (motor_max profile_max : ℚ) : ℚ := min motor_max profile_max

/-- `fmax(get_motor_min_speed(COARSE), profile->coarse_min_flow_speed_rps)`. -/
def coarse_trickler_min_speed (motor_min profile_min : ℚ) : ℚ := max motor_min profile_min

/-- `fmin(get_motor_max_speed(FINE), profile->fine_max_flow_speed_rps)`. -/
def fine_trickler_max_speed (motor_max profile_max : ℚ) : ℚ := min motor_max profile_max

/-- `fmax(get_motor_min_speed(FINE), profile->fine_min_flow_speed_rps)`. -/
def fine_trickler_min_speed (motor_min profile_min : ℚ) : ℚ := max motor_min profile_min

/-- The speed command computed in every PID branch of the dispense loop:
`fmax(lo, fmin(kp*e + ki*integral + kd*derivative, hi))`. -/
def pid_command (kp ki kd e integral derivative lo hi : ℚ) : ℚ :=
  max lo (min (kp * e + ki * integral + kd * derivative) hi)

/-- Configuration snapshot the dispense loop reads: the target weight, the
two stop thresholds, and the four clamped speed bounds computed on entry to
`charge_mode_wait_for_complete`. -/
structure dispense_config_t where
  target_charge_weight : ℚ
  coarse_stop_threshold : ℚ
  fine_stop_threshold : ℚ
  coarse_min : ℚ
  coarse_max : ℚ
  fine_min : ℚ
  fine_max : ℚ
  deriving DecidableEq, Repr

/-- The four gains selected for this iteration (tuner-provided when active,
profile gains otherwise) together with the profile integral gains. -/
structure dispense_gains_t where
  coarse_kp : ℚ
  coarse_ki : ℚ
  coarse_kd : ℚ
  fine_kp : ℚ
  fine_ki : ℚ
  fine_kd : ℚ
  deriving DecidableEq, Repr

/-- Loop-carried state of the dispense loop (`should_coarse_trickler_move`,
`integral`, `last_error`, `last_sample_tick`). -/
structure dispense_loop_state_t where
  should_coarse_trickler_move : Bool
  integral : ℚ
  last_error : ℚ
  last_sample_tick : ℚ
  deriving DecidableEq, Repr

/-- Result of one iteration: the `motor_set_speed` calls issued in order,
whether the loop broke out, and the updated loop-carried state. -/
structure dispense_step_t where
  cmds : List (trickler_motor_t × ℚ)
  done : Bool
  next : dispense_loop_state_t
  deriving DecidableEq, Repr

/-- One iteration of the main dispense loop of
`charge_mode_wait_for_complete` (charge_mode.cpp lines 319–438), after a
measurement was accepted: stop-condition checks by motor mode, PID update
with the zero-`dt` derivative guard, and the per-mode motor commands. -/
def dispense_iteration (motor_mode : ai_motor_mode_t) (cfg : dispense_config_t)
    (g : dispense_gains_t) (st : dispense_loop_state_t)
    (current_weight current_sample_tick : ℚ) : dispense_step_t :=
  let error := cfg.target_charge_weight - current_weight
  if motor_mode = .coarse_only ∧ error < cfg.coarse_stop_threshold then
    -- Phase 1: stop when the coarse threshold is reached
    { cmds := [(.coarse_motor, 0), (.fine_motor, 0)], done := true, next := st }
  else if motor_mode ≠ .coarse_only ∧ error < cfg.fine_stop_threshold then
    -- Normal or Phase 2: stop when the fine threshold is reached
    { cmds := [(.fine_motor, 0), (.coarse_motor, 0)], done := true, next := st }
  else
    let elapse_time_ms := current_sample_tick - st.last_sample_tick
    let integral := st.integral + error
    let derivative :=
      if elapse_time_ms > 0 then (error - st.last_error) / elapse_time_ms else 0
    let next := fun (b : Bool) =>
      { should_coarse_trickler_move := b
        integral := integral
        last_error := error
        last_sample_tick := current_sample_tick : dispense_loop_state_t }
    match motor_mode with
    | .coarse_only =>
      { cmds := [(.fine_motor, 0),
          (.coarse_motor, pid_command g.coarse_kp g.coarse_ki g.coarse_kd
            error integral derivative cfg.coarse_min cfg.coarse_max)]
        done := false
        next := next st.should_coarse_trickler_move }
    | .fine_only =>
      { cmds := [(.coarse_motor, 0),
          (.fine_motor, pid_command g.fine_kp g.fine_ki g.fine_kd
            error integral derivative cfg.fine_min cfg.fine_max)]
        done := false
        next := next st.should_coarse_trickler_move }
    | .normal =>
      if st.should_coarse_trickler_move then
        if error < cfg.coarse_stop_threshold then
          -- coarse done, switch to fine
          { cmds := [(.fine_motor, 0), (.coarse_motor, 0)]
            done := false
            next := next false }
        else
          { cmds := [(.fine_motor, 0),
              (.coarse_motor, pid_command g.coarse_kp g.coarse_ki g.coarse_kd
                error integral derivative cfg.coarse_min cfg.coarse_max)]
            done := false
            next := next true }
      else
        { cmds := [(.coarse_motor, 0),
            (.fine_motor, pid_command g.fine_kp g.fine_ki g.fine_kd
              error integral derivative cfg.fine_min cfg.fine_max)]
          done := false
          next := next st.should_coarse_trickler_move }

/-- Loop-carried state of the FINE_ONLY pre-charge loop
(`precharge_integral`, `precharge_last_error`, `precharge_last_tick`). -/
structure precharge_state_t where
  precharge_integral : ℚ
  precharge_last_error : ℚ
  precharge_last_tick : ℚ
  deriving DecidableEq, Repr

/-- Result of one pre-charge iteration. -/
structure precharge_step_t where
  cmds : List (trickler_motor_t × ℚ)
  done : Bool
  next : precharge_state_t
  deriving DecidableEq, Repr

/-- One iteration of the AI-tuning Phase 2 pre-charge loop
(charge_mode.cpp lines 259–313): the pre-charge target is
`target_charge_weight - coarse_stop_threshold`; the loop stops (coarse
motor commanded to 0) when `precharge_target - w < coarse_stop_threshold`,
and otherwise drives the coarse motor with the tuned coarse gains
`session.recommended_coarse_kp/kd` from Phase 1. -/
def precharge_iteration (session : ai_tuning_session_t)
    (target_charge_weight coarse_stop_threshold coarse_ki : ℚ)
    (coarse_trickler_min coarse_trickler_max : ℚ)
    (st : precharge_state_t) (current_weight now : ℚ) : precharge_step_t :=
  let tuned_coarse_kp := session.recommended_coarse_kp
  let tuned_coarse_kd := session.recommended_coarse_kd
  let precharge_target := target_charge_weight - coarse_stop_threshold
  let precharge_error := precharge_target - current_weight
  if precharge_error < coarse_stop_threshold then
    { cmds := [(.coarse_motor, 0)], done := true, next := st }
  else
    let dt_ms := now - st.precharge_last_tick
    let precharge_integral := st.precharge_integral + precharge_error
    let derivative :=
      if dt_ms > 0 then (precharge_error - st.precharge_last_error) / dt_ms else 0
    { cmds := [(.coarse_motor,
        pid_command tuned_coarse_kp coarse_ki tuned_coarse_kd
          precharge_error precharge_integral derivative
          coarse_trickler_min coarse_trickler_max)]
      done := false
      next :=
        { precharge_integral := precharge_integral
          precharge_last_error := precharge_error
          precharge_last_tick := now } }

/-- `charge_start_tick` after the pre-charge sub-phase: the function enters
with `charge_start_tick := tick on entry` (line 210), and in FINE_ONLY mode
re-reads the tick count after the pre-charge loop ends (line 316), so that
only the fine sub-phase is measured. -/
def dispense_charge_start_tick (motor_mode : ai_motor_mode_t)
    (entry_tick after_precharge_tick : ℚ) : ℚ :=
  if motor_mode = .fine_only then after_precharge_tick else entry_tick

/- ===================================================================
   Cup-removal classification (charge_mode.cpp, charge_mode_wait_for_cup_removal)
   =================================================================== -/

/-- `CHARGE_MODE_EVENT_UNDER_CHARGE = (1 << 1)` (charge_mode.cpp line 79). -/
def CHARGE_MODE_EVENT_UNDER_CHARGE : Nat := 2

/-- `CHARGE_MODE_EVENT_OVER_CHARGE = (1 << 2)` (charge_mode.cpp line 80). -/
def CHARGE_MODE_EVENT_OVER_CHARGE : Nat := 4

/-- The error classified after the 1 s settling delay:
`target_charge_weight - scale_get_current_measurement()` (line 546). -/
def cup_removal_error (target_charge_weight current_measurement : ℚ) : ℚ :=
  target_charge_weight - current_measurement

/-- Outcome of the post-charge analysis: the LED colour applied to both
LEDs and the updated `charge_mode_event` word. -/
structure cup_removal_result_t where
  led_colour : Nat
  charge_mode_event : Nat
  deriving DecidableEq, Repr

/-- The post-charge error-band classification of
`charge_mode_wait_for_cup_removal` (charge_mode.cpp lines 548–585):
over-charged when `error <= -fine_stop_threshold` (over-charge colour, set
the OVER_CHARGE bit), under-charged when `error >= fine_stop_threshold`
(under-charge colour, set the UNDER_CHARGE bit), otherwise normal (normal
colour, clear both bits by masking against the 32-bit complement). -/
def charge_mode_post_charge_classify (fine_stop_threshold : ℚ)
    (over_colour under_colour normal_colour : Nat)
    (charge_mode_event : Nat) (error : ℚ) : cup_removal_result_t :=
  if error ≤ -fine_stop_threshold then
    { led_colour := over_colour
      charge_mode_event := charge_mode_event ||| CHARGE_MODE_EVENT_OVER_CHARGE }
  else if error ≥ fine_stop_threshold then
    { led_colour := under_colour
      charge_mode_event := charge_mode_event ||| CHARGE_MODE_EVENT_UNDER_CHARGE }
  else
    { led_colour := normal_colour
      charge_mode_event := charge_mode_event &&&
        (0xFFFFFFFF ^^^ (CHARGE_MODE_EVENT_UNDER_CHARGE ||| CHARGE_MODE_EVENT_OVER_CHARGE)) }

/- ===================================================================
   CRC32 (firmware_update/crc32.c)
   =================================================================== -/

/-- `CRC32_POLYNOMIAL` 0xEDB88320 (reflected form of 0x04C11DB7). -/
def CRC32_POLYNOMIAL : Nat := 0xEDB88320

/-- `CRC32_INIT` 0xFFFFFFFF. -/
def CRC32_INIT : Nat := 0xFFFFFFFF

/-- One inner round of `crc32_generate_table`: shift right by one and
conditionally xor the polynomial, depending on the low bit. -/
def crc32_round (crc : Nat) : Nat :=
  if crc % 2 = 1 then (crc / 2) ^^^ CRC32_POLYNOMIAL else crc / 2

/-- `crc32_table[i]`: eight rounds applied to the byte value. -/
def crc32_table (i : Nat) : Nat := crc32_round^[8] i

/-- One step of `crc32_update` / `crc32_calculate`:
`crc = (crc >> 8) ^ crc32_table[(crc ^ byte) & 0xFF]`. -/
def crc32_step (crc b : Nat) : Nat :=
  (crc >>> 8) ^^^ crc32_table ((crc ^^^ b) &&& 0xFF)

/-- The running (pre-final-xor) CRC over a byte list starting from
`CRC32_INIT`, as maintained by a `crc32_context_t`. -/
def crc32_run (data : List Nat) : Nat := data.foldl crc32_step CRC32_INIT

/-- `crc32_calculate`: table-driven CRC32 with init 0xFFFFFFFF and final
xor 0xFFFFFFFF. -/
def crc32_calculate (data : List Nat) : Nat := crc32_run data ^^^ 0xFFFFFFFF

/-- `crc32_finalize` on a streaming context holding running value `crc`. -/
def crc32_finalize (crc : Nat) : Nat := crc ^^^ 0xFFFFFFFF

/- ===================================================================
   Firmware metadata and dual-bank updater
   (firmware_update/firmware_manager.c, bootloader/bootloader.c; the
   metadata store and raw flash operations live in metadata.c /
   flash_ops.c, which are not among the sources, and are modelled from
   the specification)
   =================================================================== -/

/-- `firmware_bank_t`: the two banks plus `BANK_UNKNOWN`. -/
inductive firmware_bank_t
  | bank_a
  | bank_b
  | bank_unknown
  deriving DecidableEq, Repr

/-- `bank_get_opposite`. -/
def bank_get_opposite : firmware_bank_t → firmware_bank_t
  | .bank_a => .bank_b
  | .bank_b => .bank_a
  | .bank_unknown => .bank_unknown

/-- Per-bank metadata fields (`crc32`, `size`, `boot_count`,
`version_string`, `valid_flag`); `valid = true` embeds
`valid_flag == BANK_VALID`. -/
structure bank_metadata_t where
  crc32 : Nat
  size : Nat
  boot_count : Nat
  version : String
  valid : Bool
  deriving DecidableEq, Repr

/-- The firmware metadata record (§3 of the specification):
`update_in_progress` is `none` for NONE and `some target` for
IN_PROGRESS(target). -/
structure firmware_metadata_t where
  active_bank : firmware_bank_t
  bank_a : bank_metadata_t
  bank_b : bank_metadata_t
  update_in_progress : Option firmware_bank_t
  rollback_occurred : Bool
  deriving DecidableEq, Repr

/-- Bank-indexed read of the per-bank metadata fields. -/
def metadata_get_bank (m : firmware_metadata_t) :
    firmware_bank_t → Option bank_metadata_t
  | .bank_a => some m.bank_a
  | .bank_b => some m.bank_b
  | .bank_unknown => none

/-- Bank-indexed update of the per-bank metadata fields. -/
def metadata_set_bank (m : firmware_metadata_t) (b : firmware_bank_t)
    (bm : bank_metadata_t) : firmware_metadata_t :=
  match b with
  | .bank_a => { m with bank_a := bm }
  | .bank_b => { m with bank_b := bm }
  | .bank_unknown => m

/-- Modelled from the spec: `metadata_mark_bank_valid` (metadata.c is not
among the sources) writes metadata marking the bank valid with
`(crc32, size, version, boot_count = 0)`. -/
def metadata_mark_bank_valid (m : firmware_metadata_t) (b : firmware_bank_t)
    (crc size : Nat) (version : String) : firmware_metadata_t :=
  metadata_set_bank m b
    { crc32 := crc, size := size, boot_count := 0, version := version, valid := true }

/-- Modelled from the spec: `metadata_mark_bank_invalid` (metadata.c is not
among the sources) clears the bank's valid flag. -/
def metadata_mark_bank_invalid (m : firmware_metadata_t) (b : firmware_bank_t) :
    firmware_metadata_t :=
  match metadata_get_bank m b with
  | none => m
  | some bm => metadata_set_bank m b { bm with valid := false }

/-- Modelled from the spec: `metadata_clear_update_in_progress` (metadata.c
is not among the sources) clears `update_in_progress` to NONE. -/
def metadata_clear_update_in_progress (m : firmware_metadata_t) :
    firmware_metadata_t :=
  { m with update_in_progress := none }

/-- Modelled from the spec: `metadata_trigger_rollback` (metadata.c is not
among the sources) swaps the active bank to the opposite bank if that bank
is marked valid, resets the new active bank's boot count and sets the
rollback flag; it fails (`none`) when no valid backup exists. -/
def metadata_trigger_rollback (m : firmware_metadata_t) :
    Option firmware_metadata_t :=
  let opp := bank_get_opposite m.active_bank
  match metadata_get_bank m opp with
  | none => none
  | some bm =>
    if bm.valid then
      some { metadata_set_bank m opp { bm with boot_count := 0 } with
             active_bank := opp
             rollback_occurred := true }
    else none

/-- Modelled from the spec: `metadata_increment_boot_count` (metadata.c is
not among the sources) increments the active bank's boot count. -/
def metadata_increment_boot_count (m : firmware_metadata_t) :
    firmware_metadata_t :=
  match metadata_get_bank m m.active_bank with
  | none => m
  | some bm =>
    metadata_set_bank m m.active_bank { bm with boot_count := bm.boot_count + 1 }

/-- Modelled from the spec: `flash_validate_firmware` (flash_ops.c is not
among the sources) reads the first `size` bytes of the bank back from flash,
recomputes the CRC32 over them and succeeds iff it equals the expected
value. -/
def flash_validate_firmware (contents : List Nat) (expected_crc32 size : Nat) :
    Bool :=
  crc32_calculate (contents.take size) = expected_crc32

/-- `MAX_BOOT_ATTEMPTS` = 3 (metadata.h is not among the sources; the value
is fixed by the specification). -/
def MAX_BOOT_ATTEMPTS : Nat := 3

/-- `validate_firmware_bank` from bootloader.c: reject unknown banks and
banks whose valid flag is not set; trust a bank whose stored size and CRC32
are both zero (first boot after a monolithic flash); otherwise require a
non-zero size within the bank capacity and a matching CRC32 over the bank
contents. -/
def validate_firmware_bank (bank_capacity : Nat)
    (flash : firmware_bank_t → List Nat) (bank : firmware_bank_t)
    (meta : firmware_metadata_t) : Bool :=
  match metadata_get_bank meta bank with
  | none => false
  | some bm =>
    if ¬ bm.valid then false
    else if bm.size = 0 ∧ bm.crc32 = 0 then true
    else if bm.size = 0 ∨ bm.size > bank_capacity then false
    else flash_validate_firmware (flash bank) bm.crc32 bm.size

/-- Outcome of a bootloader run: halt with a fatal blink pattern, or jump
into the firmware of a bank with the final (post-increment) metadata. -/
inductive boot_outcome_t
  | halt
  | boot (bank : firmware_bank_t) (meta : firmware_metadata_t)
  deriving DecidableEq, Repr

/-- The validate-and-boot tail of the bootloader `main` (bootloader.c lines
243–287): validate the active bank, on failure trigger a rollback, re-read
the metadata and validate the new active bank, halting when both fail;
finally increment the active bank's boot counter and jump. -/
def bootloader_validate_and_boot (bank_capacity : Nat)
    (flash : firmware_bank_t → List Nat) (meta : firmware_metadata_t) :
    boot_outcome_t :=
  let boot_bank := meta.active_bank
  if validate_firmware_bank bank_capacity flash boot_bank meta then
    .boot boot_bank (metadata_increment_boot_count meta)
  else
    match metadata_trigger_rollback meta with
    | none => .halt
    | some meta2 =>
      if validate_firmware_bank bank_capacity flash meta2.active_bank meta2 then
        .boot meta2.active_bank (metadata_increment_boot_count meta2)
      else .halt

/-- The boot decision logic of the bootloader `main` (bootloader.c lines
214–287), starting from successfully read metadata: when the active bank's
boot count has reached `MAX_BOOT_ATTEMPTS`, trigger an automatic rollback
(halting if it fails) and re-read the metadata before validating. -/
def bootloader_main (bank_capacity : Nat)
    (flash : firmware_bank_t → List Nat) (meta : firmware_metadata_t) :
    boot_outcome_t :=
  let boot_bank := meta.active_bank
  let boot_count :=
    match boot_bank with
    | .bank_a => meta.bank_a.boot_count
    | .bank_b => meta.bank_b.boot_count
    | .bank_unknown => 0
  if boot_count ≥ MAX_BOOT_ATTEMPTS then
    match metadata_trigger_rollback meta with
    | none => .halt
    | some meta1 => bootloader_validate_and_boot bank_capacity flash meta1
  else
    bootloader_validate_and_boot bank_capacity flash meta

/-- `firmware_update_state_t` from firmware_manager.h. -/
inductive firmware_update_state_t
  | idle
  | preparing
  | erasing
  | receiving
  | validating
  | complete
  | update_error
  deriving DecidableEq, Repr

/-- The updater context (`update_context` in firmware_manager.c); the
streaming CRC context is carried as its running value `crc_running`. -/
structure update_context_t where
  state : firmware_update_state_t
  target_bank : firmware_bank_t
  expected_size : Nat
  bytes_written : Nat
  expected_version : String
  crc_running : Nat
  deriving DecidableEq, Repr

/-- `firmware_manager_finalize_update` from firmware_manager.c, over the
updater context, the metadata and the bytes actually present in the target
bank's flash: require the receiving state with all bytes written, verify
the streaming CRC against `final_crc32`, re-verify by reading the flash
back, then mark the target bank valid with `(final_crc32, expected_size,
version)` and clear `update_in_progress`; on either CRC mismatch mark the
target invalid, clear `update_in_progress` and return to IDLE. -/
def firmware_manager_finalize_update (ctx : update_context_t)
    (meta : firmware_metadata_t) (target_flash : List Nat)
    (final_crc32 : Nat) :
    Bool × update_context_t × firmware_metadata_t :=
  if ctx.state ≠ .receiving then
    (false, { ctx with state := .update_error }, meta)
  else if ctx.bytes_written ≠ ctx.expected_size then
    (false, { ctx with state := .update_error }, meta)
  else
    let calculated_crc32 := crc32_finalize ctx.crc_running
    if calculated_crc32 ≠ final_crc32 then
      (false, { ctx with state := .idle },
        metadata_clear_update_in_progress
          (metadata_mark_bank_invalid meta ctx.target_bank))
    else if ¬ flash_validate_firmware target_flash final_crc32 ctx.expected_size then
      (false, { ctx with state := .idle },
        metadata_clear_update_in_progress
          (metadata_mark_bank_invalid meta ctx.target_bank))
    else
      let version := if ctx.expected_version ≠ "" then ctx.expected_version else "uploaded"
      let meta := metadata_mark_bank_valid meta ctx.target_bank final_crc32
        ctx.expected_size version
      let meta := metadata_clear_update_in_progress meta
      (true, { ctx with state := .complete }, meta)

/- ===================================================================
   WiFi configuration region (wireless.c)
   =================================================================== -/

/-- `CONFIG_MAGIC` 0x57494649 ("WIFI"). -/
def CONFIG_MAGIC : Nat := 0x57494649

/-- `wifi_credentials_t` from wireless.c; the two char arrays are byte
lists (33 and 64 bytes; `char` is unsigned on the target). -/
structure wifi_credentials_t where
  magic : Nat
  home_ssid : List Nat
  home_password : List Nat
  auth_method : Nat
  timeout_ms : Nat
  wifi_enabled : Bool
  checksum : Nat
  deriving DecidableEq, Repr

/-- `calculate_checksum` from wireless.c: a 32-bit sum of the magic, each
ssid byte, each password byte, the `auth_method` and `timeout_ms` values,
and 1 when the enabled flag is set. -/
def calculate_checksum (c : wifi_credentials_t) : Nat :=
  ((c.home_password.foldl (· + ·) (c.home_ssid.foldl (· + ·) c.magic))
    + c.auth_method + c.timeout_ms + (if c.wifi_enabled then 1 else 0)) % 2^32

/-- `read_wifi_credentials` from wireless.c: the region is accepted iff the
stored magic equals `CONFIG_MAGIC` and the stored checksum matches the
recomputation. -/
def read_wifi_credentials (c : wifi_credentials_t) : Bool :=
  c.magic = CONFIG_MAGIC ∧ c.checksum = calculate_checksum c

/-- The four little-endian bytes of a 32-bit value, used to state the
claim's byte-wise checksum. -/
def u32_bytes (n : Nat) : List Nat :=
  [n % 256, n / 2^8 % 256, n / 2^16 % 256, n / 2^24 % 256]

/-- The checksum formula exactly as the specification states it: the magic
plus the sum of every body byte interpreted as unsigned (the two `u32`
fields contributing their four bytes each) plus 1 when the enabled flag is
set. -/
def claim_checksum (c : wifi_credentials_t) : Nat :=
  (c.magic + c.home_ssid.sum + c.home_password.sum
    + (u32_bytes c.auth_method).sum + (u32_bytes c.timeout_ms).sum
    + (if c.wifi_enabled then 1 else 0)) % 2^32

/- ===================================================================
   Shared helper lemmas and sample values
   =================================================================== -/

/-- `foldl (+)` from an accumulator equals the accumulator plus the sum. -/
theorem foldl_add_eq_add_sum (l : List Nat) (a : Nat) :
    l.foldl (· + ·) a = a + l.sum := by
  induction l generalizing a with
  | nil => simp
  | cons x xs ih =>
    simp [List.foldl, ih]
    omega

/-- The clamp used in every dispense PID branch stays inside `[lo, hi]`
when the interval is non-empty. -/
theorem pid_command_bounds (kp ki kd e integral derivative lo hi : ℚ)
    (h : lo ≤ hi) :
    lo ≤ pid_command kp ki kd e integral derivative lo hi ∧
    pid_command kp ki kd e integral derivative lo hi ≤ hi :=
  ⟨le_max_left _ _, max_le h (min_le_right _ _)⟩

/-- A concrete profile used to instantiate witnesses. -/
def sample_profile : profile_t :=
  { coarse_kp := 1/2, coarse_ki := 0, coarse_kd := 1/10
    fine_kp := 3, fine_ki := 0, fine_kd := 2
    coarse_min_flow_speed_rps := 1, coarse_max_flow_speed_rps := 5
    fine_min_flow_speed_rps := 1/10, fine_max_flow_speed_rps := 2 }

/-- A concrete completed tuner session used to instantiate witnesses. -/
def sample_session : ai_tuning_session_t :=
  { state := .complete
    target_profile := some sample_profile
    drops_completed := 0
    total_drops_target := 15
    max_drops_allowed := 30
    drops := []
    coarse_kp_best := 2/5, coarse_kd_best := 1/5
    fine_kp_best := 4, fine_kd_best := 1
    recommended_coarse_kp := 3/5, recommended_coarse_kd := 1/4
    recommended_fine_kp := 5, recommended_fine_kd := 3/2
    phase2_start_idx := 0
    avg_overthrow := 0, avg_total_time := 0 }

/- ===================================================================
   Claim theorems
   =================================================================== -/

set_option maxHeartbeats 2000000 in
/-- C8: for every drop telemetry record, the tuner's score used as the GP
observation equals 100 minus min(50, 5·|overthrow_percent|), minus
min(30, 30·max(0, time_ratio − 1)), plus 20·(1 − time_ratio) when
time_ratio < 1 and overthrow_percent is at most the overthrow target (else
plus 0), clamped below at 0, with
time_ratio = total_time_ms / total_time_target_ms. -/
theorem calculate_score_matches_claim (cfg : ai_tuning_config_t)
    (drop : ai_drop_telemetry_t) :
    calculate_score cfg drop = claim_score cfg drop := by
  unfold calculate_score claim_score
  set a := |drop.overthrow_percent| with ha
  set r := drop.total_time_ms / cfg.target_total_time_ms with hr
  simp only [min_def, max_def]
  have h0 : 0 ≤ a := ha ▸ abs_nonneg drop.overthrow_percent
  split_ifs <;> linarith

/-- C10: a successful `ai_tuning_apply_params` (requiring the COMPLETE or
ERROR state and a non-null target profile) copies the recommended gains
into the target profile and resets the session state to IDLE, after which
`ai_tuning_is_active` is false and `ai_tuning_get_recommended_params`
reports unavailable. -/
theorem apply_params_resets_session (s : ai_tuning_session_t) (p : profile_t)
    (hp : s.target_profile = some p)
    (hs : s.state = ai_tuning_state_t.complete ∨ s.state = ai_tuning_state_t.tuning_error) :
    (ai_tuning_apply_params s).1 = true ∧
    (ai_tuning_apply_params s).2.target_profile = some
      { p with coarse_kp := s.recommended_coarse_kp
               coarse_kd := s.recommended_coarse_kd
               fine_kp := s.recommended_fine_kp
               fine_kd := s.recommended_fine_kd } ∧
    (ai_tuning_apply_params s).2.state = ai_tuning_state_t.idle ∧
    ai_tuning_is_active (ai_tuning_apply_params s).2 = false ∧
    ai_tuning_get_recommended_params (ai_tuning_apply_params s).2 = none := by
  have hcond : ¬ (s.state ≠ ai_tuning_state_t.complete ∧ s.state ≠ ai_tuning_state_t.tuning_error) := by
    rcases hs with h | h <;> simp [h]
  simp [ai_tuning_apply_params, hp, hcond, ai_tuning_is_active,
    ai_tuning_get_recommended_params]

/-- Witness for C10 at a concrete completed session. -/
theorem apply_params_resets_session_witness :
    (ai_tuning_apply_params sample_session).1 = true ∧
    (ai_tuning_apply_params sample_session).2.target_profile = some
      { sample_profile with
          coarse_kp := sample_session.recommended_coarse_kp
          coarse_kd := sample_session.recommended_coarse_kd
          fine_kp := sample_session.recommended_fine_kp
          fine_kd := sample_session.recommended_fine_kd } ∧
    (ai_tuning_apply_params sample_session).2.state = ai_tuning_state_t.idle ∧
    ai_tuning_is_active (ai_tuning_apply_params sample_session).2 = false ∧
    ai_tuning_get_recommended_params (ai_tuning_apply_params sample_session).2 = none :=
  apply_params_resets_session sample_session sample_profile rfl (Or.inl rfl)

/-- C7: a session is created with a hard cap `max_drops_allowed = 30`, and
calling `ai_tuning_record_drop` on an active session whose completed drop
count has already reached the cap transitions the session to the error
state, sets the recommended gains to the current best-so-far gains of each
phase, and returns false. -/
theorem ai_tuning_drop_cap_error {G : Type} (ops : gp_ops_t G)
    (coarse_stop : ℚ) (ts : tuner_state_t G) (d : ai_drop_telemetry_t)
    (gpC gpF : G) (p : profile_t) (sugg : Option (ℚ × ℚ × ℚ × ℚ)) (tc tt mo : ℚ)
    (hactive : ai_tuning_is_active ts.session = true)
    (hcap : ts.session.drops_completed ≥ ts.session.max_drops_allowed) :
    ((ai_tuning_start gpC gpF (some p) sugg tc tt mo).2.map
        (fun st => st.session.max_drops_allowed)) = some 30 ∧
    (ai_tuning_record_drop ops coarse_stop ts (some d)).1 = false ∧
    (ai_tuning_record_drop ops coarse_stop ts (some d)).2.session.state
      = ai_tuning_state_t.tuning_error ∧
    (ai_tuning_record_drop ops coarse_stop ts (some d)).2.session.recommended_coarse_kp
      = ts.session.coarse_kp_best ∧
    (ai_tuning_record_drop ops coarse_stop ts (some d)).2.session.recommended_coarse_kd
      = ts.session.coarse_kd_best ∧
    (ai_tuning_record_drop ops coarse_stop ts (some d)).2.session.recommended_fine_kp
      = ts.session.fine_kp_best ∧
    (ai_tuning_record_drop ops coarse_stop ts (some d)).2.session.recommended_fine_kd
      = ts.session.fine_kd_best := by
  constructor
  · rcases sugg with _ | ⟨a, b, c, e⟩ <;> simp [ai_tuning_start]
  · simp [ai_tuning_record_drop, hactive, hcap]

/-- Witness for C7 at a concrete over-cap active session. -/
theorem ai_tuning_drop_cap_error_witness :
    ((ai_tuning_record_drop ⟨fun g _ _ _ => g, fun _ => (0, 0, 0), fun _ => (0, 0)⟩ 1
        { session := { sample_session with state := .phase1_coarse, drops_completed := 30 }
          config := ⟨20/3, 10000, 15000⟩
          coarse_tuning_phase := .adaptive_kp
          fine_tuning_phase := .adaptive_kp
          coarse_kp_step := 1/5, coarse_kd_step := 1/10
          fine_kp_step := 2, fine_kd_step := 1
          coarse_had_overthrow := false, fine_had_overthrow := false
          gp_refine_drops := 0, gp_coarse := (), gp_fine := () }
        (some ⟨1, 0, 0, 0, 0, 0, 0, 0, 0, 0, 0, 0⟩)).1 = false ∧
     (ai_tuning_record_drop ⟨fun g _ _ _ => g, fun _ => (0, 0, 0), fun _ => (0, 0)⟩ 1
        { session := { sample_session with state := .phase1_coarse, drops_completed := 30 }
          config := ⟨20/3, 10000, 15000⟩
          coarse_tuning_phase := .adaptive_kp
          fine_tuning_phase := .adaptive_kp
          coarse_kp_step := 1/5, coarse_kd_step := 1/10
          fine_kp_step := 2, fine_kd_step := 1
          coarse_had_overthrow := false, fine_had_overthrow := false
          gp_refine_drops := 0, gp_coarse := (), gp_fine := () }
        (some ⟨1, 0, 0, 0, 0, 0, 0, 0, 0, 0, 0, 0⟩)).2.session.state
       = ai_tuning_state_t.tuning_error) :=
  ⟨(ai_tuning_drop_cap_error ⟨fun g _ _ _ => g, fun _ => (0, 0, 0), fun _ => (0, 0)⟩ 1 _ _
      () () sample_profile none 0 0 0 (by decide) (by decide)).2.1,
   (ai_tuning_drop_cap_error ⟨fun g _ _ _ => g, fun _ => (0, 0, 0), fun _ => (0, 0)⟩ 1 _ _
      () () sample_profile none 0 0 0 (by decide) (by decide)).2.2.1⟩

/-- C2 counterexample: at `error = -fine_stop_threshold` (here −1 with
threshold 1) neither of the claim's strict conditions `error < −fine_stop`
and `error > fine_stop` holds, so the claim classifies the drop as normal;
the code classifies it as over-charge (over-charge LED colour, OVER_CHARGE
event bit set). -/
theorem charge_classification_strict_bands_false :
    (charge_mode_post_charge_classify 1 10 20 30 0 (-1)).led_colour = 10 ∧
    (charge_mode_post_charge_classify 1 10 20 30 0 (-1)).charge_mode_event = 4 ∧
    ¬ ((-1 : ℚ) < -1) ∧ ¬ ((-1 : ℚ) > 1) := by
  unfold charge_mode_post_charge_classify
  split_ifs with h1 h2
  · exact ⟨rfl, by decide, by norm_num, by norm_num⟩
  · exact absurd (by norm_num : (-1 : ℚ) ≤ -1) h1
  · exact absurd (by norm_num : (-1 : ℚ) ≤ -1) h1

/-- C2 (amended): in `charge_mode_wait_for_cup_removal`, with
`error = target_charge_weight` minus the settled measurement, the bands are
inclusive: `error ≤ −fine_stop` is classified over-charge (over-charge LED
colour, OVER_CHARGE bit set), otherwise `error ≥ fine_stop` is classified
under-charge (under-charge LED colour, UNDER_CHARGE bit set), and otherwise
normal (normal LED colour, both bits cleared). -/
theorem charge_classification_inclusive_bands (t : ℚ) (oc uc nc ev : Nat)
    (target meas : ℚ) :
    (cup_removal_error target meas ≤ -t →
      (charge_mode_post_charge_classify t oc uc nc ev (cup_removal_error target meas)).led_colour = oc ∧
      (charge_mode_post_charge_classify t oc uc nc ev (cup_removal_error target meas)).charge_mode_event.testBit 2 = true) ∧
    (¬ cup_removal_error target meas ≤ -t → t ≤ cup_removal_error target meas →
      (charge_mode_post_charge_classify t oc uc nc ev (cup_removal_error target meas)).led_colour = uc ∧
      (charge_mode_post_charge_classify t oc uc nc ev (cup_removal_error target meas)).charge_mode_event.testBit 1 = true) ∧
    (¬ cup_removal_error target meas ≤ -t → ¬ t ≤ cup_removal_error target meas →
      (charge_mode_post_charge_classify t oc uc nc ev (cup_removal_error target meas)).led_colour = nc ∧
      (charge_mode_post_charge_classify t oc uc nc ev (cup_removal_error target meas)).charge_mode_event.testBit 1 = false ∧
      (charge_mode_post_charge_classify t oc uc nc ev (cup_removal_error target meas)).charge_mode_event.testBit 2 = false) := by
  set err := cup_removal_error target meas with herr
  unfold charge_mode_post_charge_classify
  refine ⟨fun h1 => ?_, fun h1 h2 => ?_, fun h1 h2 => ?_⟩
  · rw [if_pos h1]
    refine ⟨rfl, ?_⟩
    simp [CHARGE_MODE_EVENT_OVER_CHARGE, Nat.testBit_or]
    right
    decide
  · rw [if_neg h1, if_pos h2]
    refine ⟨rfl, ?_⟩
    simp [CHARGE_MODE_EVENT_UNDER_CHARGE, Nat.testBit_or]
    right
    decide
  · rw [if_neg h1, if_neg h2]
    refine ⟨rfl, ?_, ?_⟩ <;>
    · simp [CHARGE_MODE_EVENT_UNDER_CHARGE, CHARGE_MODE_EVENT_OVER_CHARGE, Nat.testBit_and]
      intro h
      decide

/-- Witness for C2 (amended) exercising all three bands at threshold 1. -/
theorem charge_classification_inclusive_bands_witness :
    ((charge_mode_post_charge_classify 1 10 20 30 0 (cup_removal_error 20 22)).led_colour = 10 ∧
      (charge_mode_post_charge_classify 1 10 20 30 0 (cup_removal_error 20 22)).charge_mode_event.testBit 2 = true) ∧
    ((charge_mode_post_charge_classify 1 10 20 30 0 (cup_removal_error 20 19)).led_colour = 20 ∧
      (charge_mode_post_charge_classify 1 10 20 30 0 (cup_removal_error 20 19)).charge_mode_event.testBit 1 = true) ∧
    ((charge_mode_post_charge_classify 1 10 20 30 0 (cup_removal_error 20 20)).led_colour = 30 ∧
      (charge_mode_post_charge_classify 1 10 20 30 0 (cup_removal_error 20 20)).charge_mode_event.testBit 1 = false ∧
      (charge_mode_post_charge_classify 1 10 20 30 0 (cup_removal_error 20 20)).charge_mode_event.testBit 2 = false) :=
  ⟨(charge_classification_inclusive_bands 1 10 20 30 0 20 22).1
      (by norm_num [cup_removal_error]),
   (charge_classification_inclusive_bands 1 10 20 30 0 20 19).2.1
      (by norm_num [cup_removal_error]) (by norm_num [cup_removal_error]),
   (charge_classification_inclusive_bands 1 10 20 30 0 20 20).2.2
      (by norm_num [cup_removal_error]) (by norm_num [cup_removal_error])⟩

/-- C3 counterexample: the pre-charge loop targets
`target − coarse_stop_threshold` and stops when its own error drops below
`coarse_stop_threshold`; with target 10, threshold 1 and weight 8.5 the
code stops (`(10 − 1) − 8.5 = 0.5 < 1`) although the claim's condition
`e = target − w < coarse_stop_threshold` does not hold (`1.5 ≥ 1`). -/
theorem precharge_stop_at_coarse_stop_false :
    (precharge_iteration sample_session 10 1 0 0 1 ⟨0, 0, 0⟩ (17/2) 0).done = true ∧
    ¬ ((10 : ℚ) - 17/2 < 1) := by
  constructor
  · norm_num [precharge_iteration]
  · norm_num

/-- C3 (amended): in FINE_ONLY mode the pre-charge phase drives only the
coarse motor, using the tuned coarse gains recommended by Phase 1
(`session.recommended_coarse_kp/kd`), and stops (coarse motor commanded 0)
exactly when `e < 2·coarse_stop_threshold` with
`e = target_charge_weight − w` (equivalently, when the pre-charge error
`(target − coarse_stop) − w` drops below `coarse_stop`); afterwards
`charge_start_tick` is re-read so that only the fine sub-phase is
measured. -/
theorem precharge_stop_and_gains (session : ai_tuning_session_t)
    (target cs ki lo hi : ℚ) (st : precharge_state_t) (w now t0 t1 : ℚ) :
    ((precharge_iteration session target cs ki lo hi st w now).done = true ↔
        target - w < 2 * cs) ∧
    (∀ p ∈ (precharge_iteration session target cs ki lo hi st w now).cmds,
        p.1 = trickler_motor_t.coarse_motor) ∧
    ((precharge_iteration session target cs ki lo hi st w now).done = true →
        (precharge_iteration session target cs ki lo hi st w now).cmds
          = [(.coarse_motor, 0)]) ∧
    ((precharge_iteration session target cs ki lo hi st w now).done = false →
        (precharge_iteration session target cs ki lo hi st w now).cmds
          = [(.coarse_motor,
              pid_command session.recommended_coarse_kp ki session.recommended_coarse_kd
                (target - cs - w) (st.precharge_integral + (target - cs - w))
                (if now - st.precharge_last_tick > 0 then
                    (target - cs - w - st.precharge_last_error) / (now - st.precharge_last_tick)
                  else 0) lo hi)]) ∧
    dispense_charge_start_tick .fine_only t0 t1 = t1 := by
  unfold precharge_iteration
  by_cases h : target - cs - w < cs
  · simp only [if_pos h]
    refine ⟨⟨fun _ => by linarith, fun _ => by trivial⟩, ?_, fun _ => by trivial, ?_,
      by trivial⟩
    · intro p hp
      simp only [List.mem_singleton] at hp
      rw [hp]
    · intro hfalse
      simp at hfalse
  · simp only [if_neg h]
    refine ⟨⟨fun htrue => by simp at htrue, fun habs => absurd (by linarith) h⟩,
      ?_, ?_, fun _ => by trivial, by trivial⟩
    · intro p hp
      simp only [List.mem_singleton] at hp
      rw [hp]
    · intro htrue
      simp at htrue

/-- Witness for C3 (amended): the pre-charge stops at weight 8.5 against
target 10 with threshold 1, commanding the coarse motor to 0. -/
theorem precharge_stop_and_gains_witness :
    (precharge_iteration sample_session 10 1 0 0 1 ⟨0, 0, 0⟩ (17/2) 0).cmds
      = [(.coarse_motor, 0)] ∧
    ((precharge_iteration sample_session 10 1 0 0 1 ⟨0, 0, 0⟩ (17/2) 0).done = true ↔
      (10 : ℚ) - 17/2 < 2 * 1) :=
  ⟨(precharge_stop_and_gains sample_session 10 1 0 0 1 ⟨0, 0, 0⟩ (17/2) 0 0 0).2.2.1
      (by norm_num [precharge_iteration]),
   (precharge_stop_and_gains sample_session 10 1 0 0 1 ⟨0, 0, 0⟩ (17/2) 0 0 0).1⟩

/-- A concrete stored WiFi region whose checksum follows the code
(`auth_method` and `timeout_ms` added as 32-bit values). -/
def wifi_sample : wifi_credentials_t :=
  { magic := 0x57494649
    home_ssid := List.replicate 33 0
    home_password := List.replicate 64 0
    auth_method := 0
    timeout_ms := 30000
    wifi_enabled := false
    checksum := (0x57494649 + 30000) % 2^32 }

/-- C9 counterexample: a region whose stored checksum adds `timeout_ms`
as a 32-bit value (30000) is accepted by `read_wifi_credentials`, yet its
stored checksum differs from the claim's byte-wise sum (whose `timeout_ms`
contribution is `0x30 + 0x75 = 165`); so the claimed iff fails. -/
theorem wifi_checksum_bytewise_false :
    read_wifi_credentials wifi_sample = true ∧
    ¬ (wifi_sample.checksum = claim_checksum wifi_sample) := by
  constructor <;> decide

/-- C9 (amended): the stored checksum is the 32-bit sum of the magic, every
ssid byte, every password byte, the `auth_method` and `timeout_ms` values
(as 32-bit words, not byte-wise) and 1 when the enabled flag is set; a read
of the region succeeds iff the stored magic equals 0x57494649 and the
stored checksum equals this recomputation. -/
theorem wifi_read_checksum_characterization (c : wifi_credentials_t) :
    read_wifi_credentials c = true ↔
      (c.magic = CONFIG_MAGIC ∧
       c.checksum = (c.magic + c.home_ssid.sum + c.home_password.sum
         + c.auth_method + c.timeout_ms + (if c.wifi_enabled then 1 else 0)) % 2^32) := by
  simp only [read_wifi_credentials, calculate_checksum, decide_eq_true_eq]
  rw [foldl_add_eq_add_sum, foldl_add_eq_add_sum]

/-- Metadata whose bank A has factory-zero size and CRC but a cleared
valid flag. -/
def meta_zero_invalid : firmware_metadata_t :=
  { active_bank := .bank_a
    bank_a := { crc32 := 0, size := 0, boot_count := 0, version := "", valid := false }
    bank_b := { crc32 := 0, size := 0, boot_count := 0, version := "", valid := false }
    update_in_progress := none
    rollback_occurred := false }

/-- C6 counterexample: a bank with stored `size = 0` and `crc32 = 0` but a
cleared valid flag is rejected by `validate_firmware_bank` (the valid-flag
check precedes the first-boot special case), whereas the claim says any
bank with `size = 0` and `crc32 = 0` is trusted and reported valid. -/
theorem validate_bank_special_case_false :
    metadata_get_bank meta_zero_invalid .bank_a
      = some { crc32 := 0, size := 0, boot_count := 0, version := "", valid := false } ∧
    validate_firmware_bank 4096 (fun _ => []) .bank_a meta_zero_invalid = false := by
  constructor <;> decide

/-- C6 (amended): `validate_firmware_bank` accepts a bank iff its valid
flag is set and either the first-boot special case applies (stored
`size = 0` and `crc32 = 0`, size and CRC validation skipped) or the size
is non-zero and at most the bank capacity and the CRC32 over the bank
contents equals the stored crc32. -/
theorem validate_bank_characterization (bank_capacity : Nat)
    (flash : firmware_bank_t → List Nat) (bank : firmware_bank_t)
    (meta : firmware_metadata_t) (bm : bank_metadata_t)
    (h : metadata_get_bank meta bank = some bm) :
    validate_firmware_bank bank_capacity flash bank meta = true ↔
      (bm.valid = true ∧
        ((bm.size = 0 ∧ bm.crc32 = 0) ∨
         (bm.size ≠ 0 ∧ bm.size ≤ bank_capacity ∧
           crc32_calculate ((flash bank).take bm.size) = bm.crc32))) := by
  unfold validate_firmware_bank
  rw [h]
  dsimp only
  by_cases hv : bm.valid = true
  · rw [if_neg (not_not_intro hv)]
    by_cases h0 : bm.size = 0 ∧ bm.crc32 = 0
    · simp [h0, hv]
    · rw [if_neg h0]
      by_cases hs : bm.size = 0 ∨ bm.size > bank_capacity
      · rw [if_pos hs]
        simp only [false_iff, Bool.false_eq_true]
        rintro ⟨_, h1 | ⟨hnz, hle, _⟩⟩
        · exact h0 h1
        · rcases hs with h2 | h2
          · exact hnz h2
          · omega
      · rw [if_neg hs]
        push_neg at hs
        simp only [flash_validate_firmware, decide_eq_true_eq, hv, true_and]
        constructor
        · intro hcrc
          exact Or.inr ⟨hs.1, hs.2, hcrc⟩
        · rintro (h1 | ⟨_, _, hcrc⟩)
          · exact absurd h1 h0
          · exact hcrc
  · simp only [Bool.not_eq_true] at hv
    simp [hv]

/-- The lower clamp bound used for a motor's PID command. -/
def motor_clamp_lo (m : trickler_motor_t) (cfg : dispense_config_t) : ℚ :=
  match m with
  | .coarse_motor => cfg.coarse_min
  | .fine_motor => cfg.fine_min

/-- The upper clamp bound used for a motor's PID command. -/
def motor_clamp_hi (m : trickler_motor_t) (cfg : dispense_config_t) : ℚ :=
  match m with
  | .coarse_motor => cfg.coarse_max
  | .fine_motor => cfg.fine_max

/-- Helper: a property holds for the members of a two-command list. -/
theorem cmds_ok_of_two {Q : trickler_motor_t × ℚ → Prop} (a b : trickler_motor_t × ℚ)
    (ha : Q a) (hb : Q b) : ∀ p ∈ [a, b], Q p := by
  intro p hp
  rcases List.mem_cons.mp hp with rfl | hp'
  · exact ha
  · rcases List.mem_singleton.mp hp' with rfl
    exact hb

/-- Helper: a property holds for the members of a one-command list. -/
theorem cmds_ok_of_one {Q : trickler_motor_t × ℚ → Prop} (a : trickler_motor_t × ℚ)
    (ha : Q a) : ∀ p ∈ [a], Q p := by
  intro p hp
  rcases List.mem_singleton.mp hp with rfl
  exact ha

set_option maxHeartbeats 1600000 in
/-- C1: in every motor mode (NORMAL coarse and fine sub-phases,
COARSE_ONLY, FINE_ONLY, and the FINE_ONLY pre-charge), every speed the
dispense loop commands is either 0 or a PID term
`Kp·e + Ki·integral + Kd·derivative` clamped into `[lo, hi]`, where `lo`
is the maximum of the motor minimum speed and the profile minimum flow
speed and `hi` is the minimum of the motor maximum speed and the profile
maximum flow speed; hence every commanded non-zero motor speed lies within
`[lo, hi]` for that motor. -/
theorem dispense_speed_within_clamp_bounds
    (motor_mode : ai_motor_mode_t) (cfg : dispense_config_t)
    (coarse_motor_min coarse_profile_min coarse_motor_max coarse_profile_max : ℚ)
    (fine_motor_min fine_profile_min fine_motor_max fine_profile_max : ℚ)
    (g : dispense_gains_t) (st : dispense_loop_state_t) (w tick : ℚ)
    (session : ai_tuning_session_t) (ki : ℚ)
    (pst : precharge_state_t) (pw pnow : ℚ)
    (hcmin : cfg.coarse_min = coarse_trickler_min_speed coarse_motor_min coarse_profile_min)
    (hcmax : cfg.coarse_max = coarse_trickler_max_speed coarse_motor_max coarse_profile_max)
    (hfmin : cfg.fine_min = fine_trickler_min_speed fine_motor_min fine_profile_min)
    (hfmax : cfg.fine_max = fine_trickler_max_speed fine_motor_max fine_profile_max)
    (hc : cfg.coarse_min ≤ cfg.coarse_max)
    (hf : cfg.fine_min ≤ cfg.fine_max) :
    (∀ p ∈ (dispense_iteration motor_mode cfg g st w tick).cmds,
      p.2 = 0 ∨
        ((∃ kp kint kd e integ deriv, p.2 = pid_command kp kint kd e integ deriv
            (motor_clamp_lo p.1 cfg) (motor_clamp_hi p.1 cfg)) ∧
          motor_clamp_lo p.1 cfg ≤ p.2 ∧ p.2 ≤ motor_clamp_hi p.1 cfg)) ∧
    (∀ p ∈ (precharge_iteration session cfg.target_charge_weight
        cfg.coarse_stop_threshold ki cfg.coarse_min cfg.coarse_max pst pw pnow).cmds,
      p.2 = 0 ∨
        ((∃ kp kint kd e integ deriv, p.2 = pid_command kp kint kd e integ deriv
            cfg.coarse_min cfg.coarse_max) ∧
          cfg.coarse_min ≤ p.2 ∧ p.2 ≤ cfg.coarse_max)) := by
  constructor
  · cases motor_mode with
    | coarse_only =>
      simp only [dispense_iteration]
      split_ifs
      all_goals try exact cmds_ok_of_two _ _ (Or.inl rfl) (Or.inl rfl)
      all_goals exact cmds_ok_of_two _ (trickler_motor_t.coarse_motor, _) (Or.inl rfl) (Or.inr ⟨⟨_, _, _, _, _, _, rfl⟩, (pid_command_bounds _ _ _ _ _ _ _ _ hc).1, (pid_command_bounds _ _ _ _ _ _ _ _ hc).2⟩)
    | fine_only =>
      simp only [dispense_iteration]
      split_ifs
      all_goals try exact cmds_ok_of_two _ _ (Or.inl rfl) (Or.inl rfl)
      all_goals exact cmds_ok_of_two _ (trickler_motor_t.fine_motor, _) (Or.inl rfl) (Or.inr ⟨⟨_, _, _, _, _, _, rfl⟩, (pid_command_bounds _ _ _ _ _ _ _ _ hf).1, (pid_command_bounds _ _ _ _ _ _ _ _ hf).2⟩)
    | normal =>
      simp only [dispense_iteration]
      split_ifs
      all_goals try exact cmds_ok_of_two _ _ (Or.inl rfl) (Or.inl rfl)
      all_goals try exact cmds_ok_of_two _ (trickler_motor_t.coarse_motor, _) (Or.inl rfl) (Or.inr ⟨⟨_, _, _, _, _, _, rfl⟩, (pid_command_bounds _ _ _ _ _ _ _ _ hc).1, (pid_command_bounds _ _ _ _ _ _ _ _ hc).2⟩)
      all_goals exact cmds_ok_of_two _ (trickler_motor_t.fine_motor, _) (Or.inl rfl) (Or.inr ⟨⟨_, _, _, _, _, _, rfl⟩, (pid_command_bounds _ _ _ _ _ _ _ _ hf).1, (pid_command_bounds _ _ _ _ _ _ _ _ hf).2⟩)
  · simp only [precharge_iteration]
    split_ifs
    all_goals try exact cmds_ok_of_one _ (Or.inl rfl)
    all_goals exact cmds_ok_of_one _ (Or.inr ⟨⟨_, _, _, _, _, _, rfl⟩, (pid_command_bounds _ _ _ _ _ _ _ _ hc).1, (pid_command_bounds _ _ _ _ _ _ _ _ hc).2⟩)

/-- A concrete dispense configuration with bounds built as the elementwise
max/min of motor and profile limits. -/
def sample_dispense_config : dispense_config_t :=
  { target_charge_weight := 20
    coarse_stop_threshold := 1
    fine_stop_threshold := 3/100
    coarse_min := coarse_trickler_min_speed 0 1
    coarse_max := coarse_trickler_max_speed 5 4
    fine_min := fine_trickler_min_speed 0 (1/10)
    fine_max := fine_trickler_max_speed 2 3 }

/-- Witness for C1 at a concrete NORMAL-mode iteration and a concrete
pre-charge iteration. -/
theorem dispense_speed_within_clamp_bounds_witness :
    (∀ p ∈ (dispense_iteration .normal sample_dispense_config
        ⟨1/2, 0, 1/10, 3, 0, 2⟩ ⟨true, 0, 0, 0⟩ 10 300).cmds,
      p.2 = 0 ∨
        ((∃ kp kint kd e integ deriv, p.2 = pid_command kp kint kd e integ deriv
            (motor_clamp_lo p.1 sample_dispense_config)
            (motor_clamp_hi p.1 sample_dispense_config)) ∧
          motor_clamp_lo p.1 sample_dispense_config ≤ p.2 ∧
          p.2 ≤ motor_clamp_hi p.1 sample_dispense_config)) ∧
    (∀ p ∈ (precharge_iteration sample_session
        sample_dispense_config.target_charge_weight
        sample_dispense_config.coarse_stop_threshold 0
        sample_dispense_config.coarse_min sample_dispense_config.coarse_max
        ⟨0, 0, 0⟩ 19 100).cmds,
      p.2 = 0 ∨
        ((∃ kp kint kd e integ deriv, p.2 = pid_command kp kint kd e integ deriv
            sample_dispense_config.coarse_min sample_dispense_config.coarse_max) ∧
          sample_dispense_config.coarse_min ≤ p.2 ∧
          p.2 ≤ sample_dispense_config.coarse_max)) :=
  dispense_speed_within_clamp_bounds .normal sample_dispense_config 0 1 5 4 0 (1/10) 2 3
    ⟨1/2, 0, 1/10, 3, 0, 2⟩ ⟨true, 0, 0, 0⟩ 10 300 sample_session 0 ⟨0, 0, 0⟩ 19 100
    rfl rfl rfl rfl
    (by norm_num [sample_dispense_config, coarse_trickler_min_speed, coarse_trickler_max_speed])
    (by norm_num [sample_dispense_config, fine_trickler_min_speed, fine_trickler_max_speed])

/-- C4: if `firmware_manager_finalize_update(expected_crc32)` succeeds, the
target bank is marked valid in metadata with that crc32, the declared size
and the version — so `validate_firmware_bank` accepts the target bank — and
`update_in_progress` is cleared to NONE; and whenever the streaming CRC or
the flash read-back re-verification disagrees with the expected crc32,
finalize returns false, the target bank is marked invalid,
`update_in_progress` is cleared and the updater state returns to IDLE. -/
theorem firmware_finalize_update_correct (ctx : update_context_t)
    (meta : firmware_metadata_t) (target_flash : List Nat)
    (final_crc32 bank_capacity : Nat)
    (hb : ctx.target_bank ≠ .bank_unknown)
    (hsz : 0 < ctx.expected_size) (hcap : ctx.expected_size ≤ bank_capacity) :
    ((firmware_manager_finalize_update ctx meta target_flash final_crc32).1 = true →
      metadata_get_bank
          (firmware_manager_finalize_update ctx meta target_flash final_crc32).2.2
          ctx.target_bank
        = some { crc32 := final_crc32, size := ctx.expected_size, boot_count := 0,
                 version := if ctx.expected_version ≠ "" then ctx.expected_version else "uploaded",
                 valid := true } ∧
      (firmware_manager_finalize_update ctx meta target_flash final_crc32).2.2.update_in_progress
        = none ∧
      validate_firmware_bank bank_capacity (fun _ => target_flash) ctx.target_bank
          (firmware_manager_finalize_update ctx meta target_flash final_crc32).2.2 = true ∧
      (firmware_manager_finalize_update ctx meta target_flash final_crc32).2.1.state
        = .complete) ∧
    (ctx.state = .receiving → ctx.bytes_written = ctx.expected_size →
      (crc32_finalize ctx.crc_running ≠ final_crc32 ∨
        crc32_calculate (target_flash.take ctx.expected_size) ≠ final_crc32) →
      (firmware_manager_finalize_update ctx meta target_flash final_crc32).1 = false ∧
      (metadata_get_bank
          (firmware_manager_finalize_update ctx meta target_flash final_crc32).2.2
          ctx.target_bank).map bank_metadata_t.valid = some false ∧
      (firmware_manager_finalize_update ctx meta target_flash final_crc32).2.2.update_in_progress
        = none ∧
      (firmware_manager_finalize_update ctx meta target_flash final_crc32).2.1.state
        = .idle) := by
  unfold firmware_manager_finalize_update
  by_cases h1 : ctx.state ≠ firmware_update_state_t.receiving
  · rw [if_pos h1]
    exact ⟨fun hok => by simp at hok, fun hrecv _ _ => absurd hrecv h1⟩
  · rw [if_neg h1]
    by_cases h2 : ctx.bytes_written ≠ ctx.expected_size
    · rw [if_pos h2]
      exact ⟨fun hok => by simp at hok, fun _ hbw _ => absurd hbw h2⟩
    · rw [if_neg h2]
      by_cases h3 : crc32_finalize ctx.crc_running ≠ final_crc32
      · rw [if_pos h3]
        refine ⟨fun hok => by simp at hok, fun _ _ _ => ⟨rfl, ?_, rfl, rfl⟩⟩
        cases hcase : ctx.target_bank with
        | bank_unknown => exact absurd hcase hb
        | bank_a =>
          simp [hcase, metadata_clear_update_in_progress, metadata_mark_bank_invalid,
            metadata_get_bank, metadata_set_bank]
        | bank_b =>
          simp [hcase, metadata_clear_update_in_progress, metadata_mark_bank_invalid,
            metadata_get_bank, metadata_set_bank]
      · rw [if_neg h3]
        by_cases h4 : ¬ flash_validate_firmware target_flash final_crc32 ctx.expected_size
        · rw [if_pos h4]
          refine ⟨fun hok => by simp at hok, fun _ _ _ => ⟨rfl, ?_, rfl, rfl⟩⟩
          cases hcase : ctx.target_bank with
          | bank_unknown => exact absurd hcase hb
          | bank_a =>
            simp [hcase, metadata_clear_update_in_progress, metadata_mark_bank_invalid,
              metadata_get_bank, metadata_set_bank]
          | bank_b =>
            simp [hcase, metadata_clear_update_in_progress, metadata_mark_bank_invalid,
              metadata_get_bank, metadata_set_bank]
        · rw [if_neg h4]
          have hflash : crc32_calculate (target_flash.take ctx.expected_size) = final_crc32 :=
            of_decide_eq_true (not_not.mp h4)
          constructor
          · intro _
            have hget : metadata_get_bank
                (metadata_clear_update_in_progress
                  (metadata_mark_bank_valid meta ctx.target_bank final_crc32 ctx.expected_size
                    (if ctx.expected_version ≠ "" then ctx.expected_version else "uploaded")))
                ctx.target_bank
                = some { crc32 := final_crc32, size := ctx.expected_size, boot_count := 0,
                         version := if ctx.expected_version ≠ "" then ctx.expected_version else "uploaded",
                         valid := true } := by
              cases hcase : ctx.target_bank with
              | bank_unknown => exact absurd hcase hb
              | bank_a =>
                simp [hcase, metadata_clear_update_in_progress, metadata_mark_bank_valid,
                  metadata_get_bank, metadata_set_bank]
              | bank_b =>
                simp [hcase, metadata_clear_update_in_progress, metadata_mark_bank_valid,
                  metadata_get_bank, metadata_set_bank]
            refine ⟨hget, rfl, ?_, rfl⟩
            unfold validate_firmware_bank
            rw [hget]
            dsimp only
            rw [if_neg (by simp)]
            rw [if_neg (by rintro ⟨hz, _⟩; omega)]
            rw [if_neg (by rintro (hz | hgt) <;> omega)]
            simp only [flash_validate_firmware, decide_eq_true_eq]
            exact hflash
          · intro _ _ hmis
            rcases hmis with hm | hm
            · exact absurd (not_not.mp h3) hm
            · exact absurd hflash hm

/-- A receiving-state updater context whose streaming CRC matches the
single uploaded byte 0x41. -/
def ctx_ok : update_context_t :=
  { state := .receiving, target_bank := .bank_b, expected_size := 1,
    bytes_written := 1, expected_version := "", crc_running := crc32_run [65] }

/-- A receiving-state updater context whose streaming CRC cannot match. -/
def ctx_bad : update_context_t :=
  { state := .receiving, target_bank := .bank_b, expected_size := 1,
    bytes_written := 1, expected_version := "", crc_running := 0 }

/-- Witness for C4: a successful finalize of a one-byte image, and a
failing finalize whose streaming CRC disagrees. -/
theorem firmware_finalize_update_correct_witness :
    (metadata_get_bank
        (firmware_manager_finalize_update ctx_ok meta_zero_invalid [65]
          (crc32_calculate [65])).2.2 firmware_bank_t.bank_b
      = some { crc32 := crc32_calculate [65], size := 1, boot_count := 0,
               version := "uploaded", valid := true } ∧
     (firmware_manager_finalize_update ctx_ok meta_zero_invalid [65]
        (crc32_calculate [65])).2.2.update_in_progress = none ∧
     validate_firmware_bank 4096 (fun _ => [65]) firmware_bank_t.bank_b
        (firmware_manager_finalize_update ctx_ok meta_zero_invalid [65]
          (crc32_calculate [65])).2.2 = true ∧
     (firmware_manager_finalize_update ctx_ok meta_zero_invalid [65]
        (crc32_calculate [65])).2.1.state = .complete) ∧
    ((firmware_manager_finalize_update ctx_bad meta_zero_invalid [65] 0).1 = false ∧
     (metadata_get_bank
        (firmware_manager_finalize_update ctx_bad meta_zero_invalid [65] 0).2.2
        firmware_bank_t.bank_b).map bank_metadata_t.valid = some false ∧
     (firmware_manager_finalize_update ctx_bad meta_zero_invalid [65] 0).2.2.update_in_progress
        = none ∧
     (firmware_manager_finalize_update ctx_bad meta_zero_invalid [65] 0).2.1.state = .idle) :=
  ⟨(firmware_finalize_update_correct ctx_ok meta_zero_invalid [65] (crc32_calculate [65]) 4096
      (by decide) (by decide) (by decide)).1 (by decide),
   (firmware_finalize_update_correct ctx_bad meta_zero_invalid [65] 0 4096
      (by decide) (by decide) (by decide)).2 rfl rfl (Or.inl (by decide))⟩

/-- Changing only a bank's boot count (and the active-bank / rollback
fields) does not change the outcome of `validate_firmware_bank`. -/
theorem validate_rollback_meta (bank_capacity : Nat)
    (flash : firmware_bank_t → List Nat) (bank : firmware_bank_t)
    (meta : firmware_metadata_t) (bm : bank_metadata_t) (n : Nat)
    (h : metadata_get_bank meta bank = some bm) :
    validate_firmware_bank bank_capacity flash bank
      { metadata_set_bank meta bank { bm with boot_count := n } with
        active_bank := bank, rollback_occurred := true }
      = validate_firmware_bank bank_capacity flash bank meta := by
  cases bank with
  | bank_unknown => simp [metadata_get_bank] at h
  | bank_a =>
    simp only [metadata_get_bank] at h
    obtain rfl := Option.some.inj h
    simp [validate_firmware_bank, metadata_get_bank, metadata_set_bank]
  | bank_b =>
    simp only [metadata_get_bank] at h
    obtain rfl := Option.some.inj h
    simp [validate_firmware_bank, metadata_get_bank, metadata_set_bank]

/-- C5: whenever the active bank's boot count has reached
MAX_BOOT_ATTEMPTS (3) and the opposite bank passes validation, the boot
that follows activates the opposite bank: rollback is triggered before
bank validation, the re-read metadata has the opposite bank active with
its boot count reset (it is 1 after the normal boot-counter increment),
the rollback flag is set, and the boot proceeds from the previously
opposite bank. -/
theorem bootloader_boot_count_rollback (bank_capacity : Nat)
    (flash : firmware_bank_t → List Nat) (meta : firmware_metadata_t)
    (abm : bank_metadata_t)
    (habm : metadata_get_bank meta meta.active_bank = some abm)
    (hcount : abm.boot_count ≥ MAX_BOOT_ATTEMPTS)
    (hval : validate_firmware_bank bank_capacity flash
      (bank_get_opposite meta.active_bank) meta = true) :
    ∃ m, bootloader_main bank_capacity flash meta
        = boot_outcome_t.boot (bank_get_opposite meta.active_bank) m ∧
      m.active_bank = bank_get_opposite meta.active_bank ∧
      (metadata_get_bank m (bank_get_opposite meta.active_bank)).map
        bank_metadata_t.boot_count = some 1 ∧
      m.rollback_occurred = true := by
  cases hcase : meta.active_bank with
  | bank_unknown =>
    rw [hcase] at habm
    simp [metadata_get_bank] at habm
  | bank_a =>
    rw [hcase] at habm hval
    simp only [metadata_get_bank] at habm
    obtain rfl := Option.some.inj habm
    simp only [bank_get_opposite] at hval ⊢
    have hv : meta.bank_b.valid = true := by
      by_contra hvn
      unfold validate_firmware_bank at hval
      simp only [metadata_get_bank] at hval
      rw [if_pos hvn] at hval
      exact Bool.false_ne_true hval
    have hroll : metadata_trigger_rollback meta
        = some { metadata_set_bank meta .bank_b { meta.bank_b with boot_count := 0 } with
                 active_bank := .bank_b, rollback_occurred := true } := by
      unfold metadata_trigger_rollback
      rw [hcase]
      dsimp only [bank_get_opposite, metadata_get_bank]
      rw [if_pos hv]
    have hval2 : validate_firmware_bank bank_capacity flash firmware_bank_t.bank_b
        { metadata_set_bank meta .bank_b { meta.bank_b with boot_count := 0 } with
          active_bank := .bank_b, rollback_occurred := true } = true := by
      rw [validate_rollback_meta bank_capacity flash .bank_b meta meta.bank_b 0 rfl]
      exact hval
    refine ⟨metadata_increment_boot_count
      { metadata_set_bank meta .bank_b { meta.bank_b with boot_count := 0 } with
        active_bank := .bank_b, rollback_occurred := true }, ?_, ?_, ?_, ?_⟩
    · unfold bootloader_main bootloader_validate_and_boot
      rw [hcase]
      dsimp only
      rw [if_pos hcount, hroll]
      dsimp only
      rw [if_pos hval2]
    · simp [metadata_increment_boot_count, metadata_get_bank, metadata_set_bank]
    · simp [metadata_increment_boot_count, metadata_get_bank, metadata_set_bank]
    · simp [metadata_increment_boot_count, metadata_get_bank, metadata_set_bank]
  | bank_b =>
    rw [hcase] at habm hval
    simp only [metadata_get_bank] at habm
    obtain rfl := Option.some.inj habm
    simp only [bank_get_opposite] at hval ⊢
    have hv : meta.bank_a.valid = true := by
      by_contra hvn
      unfold validate_firmware_bank at hval
      simp only [metadata_get_bank] at hval
      rw [if_pos hvn] at hval
      exact Bool.false_ne_true hval
    have hroll : metadata_trigger_rollback meta
        = some { metadata_set_bank meta .bank_a { meta.bank_a with boot_count := 0 } with
                 active_bank := .bank_a, rollback_occurred := true } := by
      unfold metadata_trigger_rollback
      rw [hcase]
      dsimp only [bank_get_opposite, metadata_get_bank]
      rw [if_pos hv]
    have hval2 : validate_firmware_bank bank_capacity flash firmware_bank_t.bank_a
        { metadata_set_bank meta .bank_a { meta.bank_a with boot_count := 0 } with
          active_bank := .bank_a, rollback_occurred := true } = true := by
      rw [validate_rollback_meta bank_capacity flash .bank_a meta meta.bank_a 0 rfl]
      exact hval
    refine ⟨metadata_increment_boot_count
      { metadata_set_bank meta .bank_a { meta.bank_a with boot_count := 0 } with
        active_bank := .bank_a, rollback_occurred := true }, ?_, ?_, ?_, ?_⟩
    · unfold bootloader_main bootloader_validate_and_boot
      rw [hcase]
      dsimp only
      rw [if_pos hcount, hroll]
      dsimp only
      rw [if_pos hval2]
    · simp [metadata_increment_boot_count, metadata_get_bank, metadata_set_bank]
    · simp [metadata_increment_boot_count, metadata_get_bank, metadata_set_bank]
    · simp [metadata_increment_boot_count, metadata_get_bank, metadata_set_bank]

/-- Metadata whose active bank A has exhausted its boot attempts while
bank B is a valid (trusted first-boot) backup. -/
def meta_rollback_sample : firmware_metadata_t :=
  { active_bank := .bank_a
    bank_a := { crc32 := 5, size := 7, boot_count := 3, version := "a", valid := true }
    bank_b := { crc32 := 0, size := 0, boot_count := 9, version := "b", valid := true }
    update_in_progress := none
    rollback_occurred := false }

/-- Witness for C5: with `boot_count[A] = 3` and bank B valid, the boot
activates bank B with its boot count reset (1 after the increment) and the
rollback flag set. -/
theorem bootloader_boot_count_rollback_witness :
    ∃ m, bootloader_main 4096 (fun _ => []) meta_rollback_sample
        = boot_outcome_t.boot (bank_get_opposite meta_rollback_sample.active_bank) m ∧
      m.active_bank = bank_get_opposite meta_rollback_sample.active_bank ∧
      (metadata_get_bank m (bank_get_opposite meta_rollback_sample.active_bank)).map
        bank_metadata_t.boot_count = some 1 ∧
      m.rollback_occurred = true :=
  bootloader_boot_count_rollback 4096 (fun _ => []) meta_rollback_sample
    meta_rollback_sample.bank_a rfl (by decide) (by decide)

/-- Metadata whose bank A holds a one-byte image with a matching stored
CRC32. -/
def meta_valid_sample : firmware_metadata_t :=
  { active_bank := .bank_a
    bank_a := { crc32 := crc32_calculate [65], size := 1, boot_count := 0,
                version := "v1", valid := true }
    bank_b := { crc32 := 0, size := 0, boot_count := 0, version := "", valid := false }
    update_in_progress := none
    rollback_occurred := false }

/-- Witness for C6 (amended): a valid-flagged bank with a matching CRC32
over its contents passes validation. -/
theorem validate_bank_characterization_witness :
    validate_firmware_bank 4096 (fun _ => [65]) .bank_a meta_valid_sample = true :=
  (validate_bank_characterization 4096 (fun _ => [65]) .bank_a meta_valid_sample
    meta_valid_sample.bank_a rfl).mpr (by decide)
